import Mathlib

/-!
Verification of the dependency build-and-install orchestrator in
src/third_party/deps.py against its natural-language specification.

The Python source is shallowly embedded:
  - a text file on disk is modelled as `Option (List String)`: `none` means
    the file does not exist, `some lines` is the list of its physical lines,
    each line given without its trailing newline character;
  - paths are modelled as lists of path segments (the `parts` of a
    relative `pathlib.Path`);
  - external effects (the `git rev-parse` call, the cmake configure, build
    and install subprocesses, lock contention) are modelled as explicit
    parameters recording their outcome;
  - the functions `read_line_at` and `write_line_at` called at deps.py
    lines 221 and 231 are not defined anywhere under src/; they are
    modelled from the spec (section 4.2) as the line-level read and write
    operations, which coincide with the `ReadLineAt` and `WriteLineAt`
    static methods defined at lines 101-128.
-/

/-- Models Python `s.rstrip("\n")` (deps.py line 114 and line 126):
removes every trailing newline character of `s`. -/
def rstripNewline (s : String) : String :=
  String.mk ((s.data.reverse.dropWhile (fun c => c == '\n')).reverse)

namespace InstallingLibrary

/-- Embeds `InstallingLibrary.WriteLineAt` (deps.py lines 101-116): read the
existing lines (empty list when the file is absent), pad with blank lines
until the file has `n` lines, then replace line `n` with `text` stripped of
trailing newlines.  The source is only ever called with `n` equal to 1 or 2;
the embedding is meaningful for `n ≥ 1` (Python would address index `n - 1`).
Returns the lines of the rewritten file. -/
def WriteLineAt (file : Option (List String)) (n : Nat) (text : String) :
    List String :=
  let lines := file.getD []
  let padded := lines ++ List.replicate (n - lines.length) ""
  padded.set (n - 1) (rstripNewline text)

/-- Embeds `InstallingLibrary.ReadLineAt` (deps.py lines 118-128): `none`
when the file does not exist or has fewer than `n` lines (or `n = 0`, which
the 1-based enumeration in the source never reaches), otherwise line `n`
stripped of its trailing newline. -/
def ReadLineAt (file : Option (List String)) (n : Nat) : Option String :=
  match file with
  | none => none
  | some lines => if n = 0 then none else (lines[n - 1]?).map rstripNewline

/-- Embeds `InstallingLibrary.CheckGitHash` (deps.py lines 141-146).
`git` is the outcome of `GetGitHash` (lines 133-139): `some rev` when the
`git rev-parse HEAD` subprocess succeeds with stripped output `rev`, `none`
when it raises `CalledProcessError`, in which case the except branch logs
and returns `False`. -/
def CheckGitHash (git : Option String) (file : Option (List String)) : Bool :=
  match git with
  | none => false
  | some rev => ReadLineAt file 1 == some rev

/-- Embeds `InstallingLibrary.IsHashRelevant` (deps.py lines 148-151):
true iff the hash file exists and its first line equals the current git
hash. -/
def IsHashRelevant (git : Option String) (file : Option (List String)) :
    Bool :=
  file.isSome && CheckGitHash git file

end InstallingLibrary

namespace CMakeLibrary

/-- Embeds `CMakeLibrary.CheckBuildHash` (deps.py lines 219-224): compares
the memoised build hash (`GetBuildHash`, lines 210-217, an md5 hex digest
of the joined cmake arguments, modelled as the opaque string `digest`)
with line 2 of the hash file.  Modelled from the spec: the function
`read_line_at` called on line 221 is absent from src/ and is taken, per
spec section 4.2, to be the line-level read `ReadLineAt`. -/
def CheckBuildHash (digest : String) (file : Option (List String)) : Bool :=
  InstallingLibrary.ReadLineAt file 2 == some digest

/-- Embeds `CMakeLibrary.IsHashRelevant` (deps.py lines 226-227): the base
check (file exists and line 1 matches the git hash) conjoined with the
build-hash check on line 2. -/
def IsHashRelevant (git : Option String) (digest : String)
    (file : Option (List String)) : Bool :=
  InstallingLibrary.IsHashRelevant git file && CheckBuildHash digest file

/-- Embeds `CMakeLibrary.WriteHash` (deps.py lines 229-231): write the git
hash to line 1 (via `InstallingLibrary.WriteHash`, line 153-154), then the
build hash to line 2.  Modelled from the spec: the function `write_line_at`
called on line 231 is absent from src/ and is taken, per spec section 4.2,
to be the line-level write `WriteLineAt`. -/
def WriteHash (file : Option (List String)) (rev digest : String) :
    List String :=
  InstallingLibrary.WriteLineAt (some (InstallingLibrary.WriteLineAt file 1 rev))
    2 digest

/-- Outcome of one `InstallLibrary` run for a cmake library. -/
inductive InstallResult where
  | upToDate
  | buildFailed
  | gitFailed
  | installed
deriving DecidableEq

/-- Embeds `InstallingLibrary.InstallLibrary` (deps.py lines 156-176)
specialised to a cmake library, tracking the cache-record file.
Parameters record the outcomes of the external steps: `git` is the
`git rev-parse` result, `buildOk` is true iff both the configure and the
build subprocess of `BuildAndInstall` (lines 270 and 274) exit
successfully, `installOk` is true iff the install subprocess (line 287)
exits successfully.  If the hash is relevant the function returns early
(line 163-165); if any subprocess raises, the exception propagates before
`WriteHash` on line 174 runs; if the git hash cannot be obtained,
`GetGitHash` inside `WriteHash` raises before any line is written (the
text argument on line 154 is evaluated first).  Returns the final state
of the cache-record file together with the outcome. -/
def InstallLibrary (git : Option String) (digest : String)
    (buildOk installOk : Bool) (file : Option (List String)) :
    Option (List String) × InstallResult :=
  if IsHashRelevant git digest file then (file, .upToDate)
  else if !(buildOk && installOk) then (file, .buildFailed)
  else match git with
    | none => (file, .gitFailed)
    | some rev => (some (WriteHash file rev digest), .installed)

end CMakeLibrary

/-- Name of the lock file created inside the build directory
(deps.py line 244). -/
def lockFileName : String := ".lock"

/-- State of one build working directory: `items` is the list of names of
its top-level entries (`none` when the directory does not exist), and
`lockHeld` records whether this process currently holds the advisory lock
on the `.lock` file inside it. -/
structure BuildDirState where
  items : Option (List String)
  lockHeld : Bool
deriving DecidableEq

namespace CMakeLibrary

/-- Embeds a successful `CMakeLibrary._AcquireLock` (deps.py lines
191-208): `open(lock_file, "w")` creates the `.lock` file inside the
directory (creating the directory itself if needed) and the flock call
claims it. -/
def acquireCreatesLock (s : BuildDirState) : BuildDirState :=
  let cur := s.items.getD []
  { items := some (if cur.contains lockFileName then cur
                   else lockFileName :: cur),
    lockHeld := true }

/-- Embeds the clearing loop of `CMakeLibrary.BuildAndInstall` (deps.py
lines 247-254): every entry of the acquired build directory except the
lock file is deleted. -/
def clearExceptLock (s : BuildDirState) : BuildDirState :=
  { s with items := some ((s.items.getD []).filter
      (fun i => i == lockFileName)) }

/-- Embeds `lock.close()` in the finally block (deps.py lines 275-277):
the advisory claim is released; no filesystem entry is touched. -/
def releaseLock (s : BuildDirState) : BuildDirState :=
  { s with lockHeld := false }

/-- Embeds `shutil.rmtree(build_dir)` (deps.py line 289): the build
directory and everything in it, the lock file included, is removed. -/
def rmtreeBuildDir (s : BuildDirState) : BuildDirState :=
  { s with items := none }

/-- Which external step of `BuildAndInstall` fails, if any.  `success`
means the configure, build and install subprocesses all exit with
status 0. -/
inductive CMakeOutcome where
  | configureFailed
  | buildFailed
  | installFailed
  | success
deriving DecidableEq

/-- Embeds the effect of `CMakeLibrary.BuildAndInstall` (deps.py lines
233-289) on the acquired build directory, assuming the lock on the base
directory is obtained at once (contention is modelled separately by
`acquiredIndex`).  The lock is acquired and the directory cleared (lines
243-255); on a configure or build failure the finally block releases the
lock and the exception propagates (lines 261-277); on an install failure
the lock has already been released and the exception propagates before
line 289; on full success line 289 removes the whole build directory. -/
def BuildAndInstall (s : BuildDirState) (o : CMakeOutcome) : BuildDirState :=
  let locked := clearExceptLock (acquireCreatesLock s)
  match o with
  | .configureFailed => releaseLock locked
  | .buildFailed => releaseLock locked
  | .installFailed => releaseLock locked
  | .success => rmtreeBuildDir (releaseLock locked)

/-- Whether the lock file is present on disk in the given build-directory
state. -/
def lockFileExists (s : BuildDirState) : Bool :=
  match s.items with
  | none => false
  | some items => items.contains lockFileName

/-- Embeds the naming scheme of the lock-retry loop of `BuildAndInstall`
(deps.py lines 238-259): attempt 0 uses the configured build directory
name, attempt `k ≥ 1` uses the sibling named with suffix `-k`. -/
def buildDirName (base : String) (k : Nat) : String :=
  if k = 0 then base else base ++ "-" ++ toString k

/-- Embeds the unbounded retry loop of `BuildAndInstall` (deps.py lines
243-259): `locked k = true` means the lock on the directory of attempt
`k` is already held by another process, so `_AcquireLock` returns `None`
there.  Given that some attempt is free, the loop acquires the first free
attempt index. -/
def acquiredIndex (locked : Nat → Bool) (h : ∃ k, locked k = false) : Nat :=
  Nat.find h

/-- Embeds the install-destination replacement of
`CMakeLibrary.BuildAndInstall` (deps.py lines 281-287): the existing
install directory is removed, recreated empty, and `cmake --install`
places exactly the new artifact set.  The directory content is modelled
as the list of installed relative file paths. -/
def replaceInstallDir (_old : List String) (artifacts : List String) :
    List String :=
  artifacts

end CMakeLibrary

namespace ManualLibrary

/-- Embeds the net effect of the copy loop of `ManualLibrary.BuildAndInstall`
(deps.py lines 337-352) on the install destination: `InstallLibrary`
creates the destination only when absent (lines 167-168) and never clears
it; each `shutil.copy2` or `shutil.copytree(..., dirs_exist_ok=True)`
overwrites a colliding relative path and leaves every other existing file
in place.  The directory content is modelled as the list of file paths it
holds. -/
def installInto (dest : List String) (copied : List String) : List String :=
  dest.filter (fun p => !(copied.contains p)) ++ copied

/-- Splits a character list on the path separator, the way Python
`str.split("/")` splits a string. -/
def splitSegs : List Char → List (List Char)
  | [] => [[]]
  | '/' :: rest => [] :: splitSegs rest
  | c :: rest =>
    match splitSegs rest with
    | [] => [[c]]
    | s :: ss => (c :: s) :: ss

/-- Models `pathlib.Path(pattern).parts` for a relative POSIX pattern
(deps.py line 310): split on the separator, dropping empty segments and
single-dot segments as pathlib normalisation does. -/
def toParts (s : String) : List String :=
  ((splitSegs s.data).map String.mk).filter (fun p => !(p == "" || p == "."))

/-- Embeds the wildcard test of `ManualLibrary._SplitPattern` (deps.py
line 313): a segment is a wildcard segment iff it contains one of the
three glob metacharacters. -/
def hasWildcard (part : String) : Bool :=
  part.data.any (fun c => c == '*' || c == '?' || c == '[')

/-- Embeds the scan of `ManualLibrary._SplitPattern` (deps.py lines
310-317) over the segment list: the segments before the first wildcard
segment form the fixed part, the rest form the sub-pattern. -/
def splitParts : List String → List String × List String
  | [] => ([], [])
  | p :: ps =>
    if hasWildcard p then ([], p :: ps)
    else
      let r := splitParts ps
      (p :: r.1, r.2)

/-- Embeds `ManualLibrary._SplitPattern` (deps.py lines 299-317): the
fixed path is returned as its segment list, the sub-pattern joined with
the separator as on line 315. -/
def SplitPattern (pattern : String) : List String × String :=
  let r := splitParts (toParts pattern)
  (r.1, "/".intercalate r.2)

end ManualLibrary

/-- One token of a single-segment glob pattern: literal character, `?`,
`*`, or a bracketed character class (possibly negated) given by its
character ranges. -/
inductive GlobTok where
  | star
  | qmark
  | lit (c : Char)
  | cls (neg : Bool) (ranges : List (Char × Char))
deriving DecidableEq

/-- Modelled from the spec: parses the body of a glob character class into
ranges, a `-` between two characters denoting a range and any other
character standing for itself (spec section 6, glob pattern
mini-language). -/
def parseCls : List Char → List (Char × Char)
  | [] => []
  | c :: '-' :: d :: rest => (c, d) :: parseCls rest
  | c :: rest => (c, c) :: parseCls rest

/-- Splits a character list at its first closing bracket, returning the
part before it and the part after it, or `none` when there is no closing
bracket. -/
def findClose : List Char → Option (List Char × List Char)
  | [] => none
  | ']' :: rest => some ([], rest)
  | c :: rest => (findClose rest).map (fun p => (c :: p.1, p.2))

/-- Modelled from the spec: tokenises a single-segment glob pattern
(spec section 6: `*`, `?`, `[...]` with standard fnmatch rules — a
leading `!` negates a class, a `]` directly after the opening of a class
is literal, an unclosed `[` is literal).  Structured on fuel so that the
definition is structurally recursive; one character is consumed per step,
so `chars.length + 1` fuel always suffices. -/
def parseSegFuel : Nat → List Char → List GlobTok
  | 0, _ => []
  | _ + 1, [] => []
  | f + 1, '*' :: rest => .star :: parseSegFuel f rest
  | f + 1, '?' :: rest => .qmark :: parseSegFuel f rest
  | f + 1, '[' :: rest =>
    let nb : Bool × List Char :=
      match rest with
      | '!' :: r => (true, r)
      | r => (false, r)
    let scan : Option (List Char × List Char) :=
      match nb.2 with
      | ']' :: r => (findClose r).map (fun p => (']' :: p.1, p.2))
      | r => findClose r
    match scan with
    | some p => .cls nb.1 (parseCls p.1) :: parseSegFuel f p.2
    | none => .lit '[' :: parseSegFuel f rest
  | f + 1, c :: rest => .lit c :: parseSegFuel f rest

/-- Tokenises a single-segment glob pattern. -/
def parseSeg (chars : List Char) : List GlobTok :=
  parseSegFuel (chars.length + 1) chars

/-- Whether character `c` is accepted by a character class. -/
def inCls (neg : Bool) (ranges : List (Char × Char)) (c : Char) : Bool :=
  let mem := ranges.any (fun r => decide (r.1 ≤ c) && decide (c ≤ r.2))
  if neg then !mem else mem

/-- Modelled from the spec: fnmatch of a token list against a character
list (spec section 6), `*` matching any number of characters within the
segment.  Each step reduces `toks.length + chars.length`, so that sum
plus one is always enough fuel. -/
def matchToksFuel : Nat → List GlobTok → List Char → Bool
  | 0, _, _ => false
  | _ + 1, [], [] => true
  | f + 1, .star :: ps, cs =>
    matchToksFuel f ps cs ||
      (match cs with
       | [] => false
       | _ :: cs' => matchToksFuel f (.star :: ps) cs')
  | f + 1, .qmark :: ps, _ :: cs => matchToksFuel f ps cs
  | f + 1, .lit a :: ps, c :: cs => a == c && matchToksFuel f ps cs
  | f + 1, .cls n r :: ps, c :: cs => inCls n r c && matchToksFuel f ps cs
  | _ + 1, _, _ => false

/-- Whether one glob segment matches one path segment. -/
def matchSeg (pat x : String) : Bool :=
  let toks := parseSeg pat.data
  matchToksFuel (toks.length + x.data.length + 1) toks x.data

/-- Modelled from the spec: recursive glob over path segments (spec
sections 4.4 and 6), a `**` segment matching zero or more path segments
and every other segment matched by fnmatch.  Each step reduces
`ps.length + xs.length`, so that sum plus one is always enough fuel. -/
def matchSegsFuel : Nat → List String → List String → Bool
  | 0, _, _ => false
  | _ + 1, [], [] => true
  | f + 1, "**" :: ps, xs =>
    matchSegsFuel f ps xs ||
      (match xs with
       | [] => false
       | _ :: xs' => matchSegsFuel f ("**" :: ps) xs')
  | f + 1, p :: ps, x :: xs => matchSeg p x && matchSegsFuel f ps xs
  | _ + 1, _, _ => false

/-- Whether a segment-list glob pattern matches a segment-list path. -/
def matchSegs (ps xs : List String) : Bool :=
  matchSegsFuel (ps.length + xs.length + 1) ps xs

/-- Embeds `full_path.relative_to(glob_root)` (deps.py line 341): the
remaining segments when `base` is a prefix of `full`, `none` (a Python
`ValueError`) otherwise. -/
def relativeTo (full base : List String) : Option (List String) :=
  if base.isPrefixOf full then some (full.drop base.length) else none

/-- Modelled from the spec: the filesystem expansion
`glob(str(glob_root / sub_pattern), recursive=True)` (deps.py lines
334-335) returns exactly the existing paths that lie under the literal
`glob_root` and whose remainder matches the sub-pattern (spec section
4.4). -/
def globMatches (globRoot : List String) (subPat : String)
    (full : List String) : Bool :=
  match relativeTo full globRoot with
  | some rel => matchSegs (ManualLibrary.toParts subPat) rel
  | none => false

namespace ManualLibrary

/-- Embeds one iteration of the rule loop of `ManualLibrary.BuildAndInstall`
(deps.py lines 319-346) in the case where the glob root exists and is a
directory: the pattern is split, the tree (`tree` lists the existing paths
of the source tree, as segment lists) is filtered by the glob, and every
match is mapped to `install_dir / dst_subdir / rel_path`, a match whose
relative-path computation fails being skipped (lines 340-344). -/
def ResolveRule (tree : List (List String)) (sourceDir installDir : List String)
    (pattern : String) (dstSubdir : String) :
    List (List String × List String) :=
  let fs := SplitPattern pattern
  let globRoot := sourceDir ++ fs.1
  (tree.filter (globMatches globRoot fs.2)).filterMap
    (fun full => (relativeTo full globRoot).map
      (fun rel => (full, installDir ++ toParts dstSubdir ++ rel)))

end ManualLibrary

/-- One library specification as seen by `install_libraries`:
`sourceMissing` records whether `skip_if_missing` (deps.py lines 365-369)
finds the source folder absent, `installFails` records whether
`InstallLibrary` raises `subprocess.CalledProcessError` (a failed
configure, build, install or git call). -/
structure LibSpec where
  name : String
  sourceMissing : Bool
  installFails : Bool
deriving DecidableEq

/-- Outcome of a whole `install_libraries` run: normal completion, or
`sys.exit(1)` naming the library whose processing failed. -/
inductive RunResult where
  | ok
  | fatal (libName : String)
deriving DecidableEq

/-- Embeds `install_libraries` (deps.py lines 372-382): libraries are
processed in order; a library whose source folder is missing is skipped
with a warning and the loop continues; a `CalledProcessError` from
`InstallLibrary` logs the library name and exits with status 1,
processing no further library.  Returns the names of the libraries
installed successfully, in order, together with the run outcome. -/
def install_libraries : List LibSpec → List String × RunResult
  | [] => ([], .ok)
  | l :: ls =>
    if l.sourceMissing then install_libraries ls
    else if l.installFails then ([], .fatal l.name)
    else
      let r := install_libraries ls
      (l.name :: r.1, r.2)

/-- The names of the libraries of `ls` whose source folder is present
(those a failure-free run processes). -/
def processedNames (ls : List LibSpec) : List String :=
  (ls.filter (fun l => !l.sourceMissing)).map (fun l => l.name)

/-- Models Python truthiness of a `pathlib.Path` object: `PurePath`
defines neither a bool conversion nor a length, so every `Path` value,
including `Path("")` which normalises to the current directory with an
empty parts tuple, is truthy. -/
def pathTruthy (_p : List String) : Bool := true

/-- Embeds the hash-file path computation of
`InstallingLibrary.InstallLibrary` (deps.py lines 159-161) with
`install_dir = INSTALL_ROOT / install_dir_base` (line 96):
`(CACHE_ROOT / install_dir_base if CACHE_ROOT else install_dir) /
"hash_<lib_name>.txt"`, where `CACHE_ROOT` is the `Path` built from the
`--cache-dir` argument (line 701) and is tested for truthiness. -/
def hashFilePath (cacheRoot installRoot installDirBase : List String)
    (libName : String) : List String :=
  (if pathTruthy cacheRoot then cacheRoot ++ installDirBase
   else installRoot ++ installDirBase)
    ++ ["hash_" ++ libName ++ ".txt"]

/-- A concrete contention pattern for the lock-fallback witness: the
first two attempt directories are already locked by other processes. -/
def lockedFirstTwo : Nat → Bool := fun k => decide (k < 2)

/-! ### Helper lemmas about the line-file model -/

theorem dropWhile_eq_self_of_forall {α : Type} (p : α → Bool) (l : List α)
    (h : ∀ c ∈ l, p c = false) : l.dropWhile p = l := by
  cases l with
  | nil => rfl
  | cons c t =>
    rw [List.dropWhile_cons]
    simp [h c (List.mem_cons_self c t)]

theorem rstripNewline_eq_self (s : String) (h : ∀ c ∈ s.data, c ≠ '\n') :
    rstripNewline s = s := by
  have hd : s.data.reverse.dropWhile (fun c => c == '\n') = s.data.reverse := by
    apply dropWhile_eq_self_of_forall
    intro c hc
    rw [List.mem_reverse] at hc
    simpa using h c hc
  simp only [rstripNewline, hd, List.reverse_reverse]

theorem WriteLineAt_length (file : Option (List String)) (n : Nat)
    (text : String) :
    (InstallingLibrary.WriteLineAt file n text).length =
      max (file.getD []).length n := by
  simp only [InstallingLibrary.WriteLineAt, List.length_set,
    List.length_append, List.length_replicate]
  omega

theorem ReadLineAt_WriteLineAt_self (file : Option (List String)) (n : Nat)
    (text : String) (hn : n ≠ 0) (ht : ∀ c ∈ text.data, c ≠ '\n') :
    InstallingLibrary.ReadLineAt
      (some (InstallingLibrary.WriteLineAt file n text)) n = some text := by
  simp only [InstallingLibrary.ReadLineAt, InstallingLibrary.WriteLineAt,
    if_neg hn]
  have hlen : n - 1 <
      ((file.getD []) ++
        List.replicate (n - (file.getD []).length) "").length := by
    simp only [List.length_append, List.length_replicate]
    omega
  rw [List.getElem?_set_self hlen]
  simp [rstripNewline_eq_self text ht]

theorem ReadLineAt_WriteLineAt_pad (file : Option (List String)) (n m : Nat)
    (text : String) (hm : m ≠ 0) (hmn : m < n)
    (hover : (file.getD []).length < m) :
    InstallingLibrary.ReadLineAt
      (some (InstallingLibrary.WriteLineAt file n text)) m = some "" := by
  simp only [InstallingLibrary.ReadLineAt, InstallingLibrary.WriteLineAt,
    if_neg hm]
  rw [List.getElem?_set_ne (by omega)]
  rw [List.getElem?_append_right (by omega)]
  rw [List.getElem?_replicate_of_lt (by omega)]
  rfl

theorem ReadLineAt_WriteLineAt_other (file : Option (List String)) (n k : Nat)
    (text : String) (hn : n ≠ 0) (hk : k ≠ 0) (hkn : k ≠ n)
    (hle : k ≤ (file.getD []).length) :
    InstallingLibrary.ReadLineAt
      (some (InstallingLibrary.WriteLineAt file n text)) k =
      InstallingLibrary.ReadLineAt file k := by
  cases file with
  | none => simp at hle; omega
  | some lines =>
    simp only [InstallingLibrary.ReadLineAt, InstallingLibrary.WriteLineAt,
      if_neg hk, Option.getD_some]
    rw [List.getElem?_set_ne (by omega)]
    rw [List.getElem?_append_left (by simp at hle ⊢; omega)]

theorem WriteHash_ReadLineAt (file : Option (List String)) (rev digest : String)
    (hr : ∀ c ∈ rev.data, c ≠ '\n') (hd : ∀ c ∈ digest.data, c ≠ '\n') :
    InstallingLibrary.ReadLineAt
        (some (CMakeLibrary.WriteHash file rev digest)) 1 = some rev ∧
    InstallingLibrary.ReadLineAt
        (some (CMakeLibrary.WriteHash file rev digest)) 2 = some digest := by
  constructor
  · unfold CMakeLibrary.WriteHash
    rw [ReadLineAt_WriteLineAt_other _ 2 1 _ (by omega) (by omega) (by omega)
      (by simp [WriteLineAt_length])]
    exact ReadLineAt_WriteLineAt_self file 1 rev (by omega) hr
  · exact ReadLineAt_WriteLineAt_self _ 2 digest (by omega) hd

/-! ### Claim theorems -/

/-- C1: for a build-based (cmake) library, `IsHashRelevant` is true iff the
cache record file exists and line 1 equals the current revision id while
line 2 equals the current configuration digest; in every other case,
including a failing `git rev-parse` call, it returns false without
failing. -/
theorem hash_relevance_iff (rev digest : String) (file : Option (List String)) :
    (CMakeLibrary.IsHashRelevant (some rev) digest file = true ↔
      file.isSome = true ∧
      InstallingLibrary.ReadLineAt file 1 = some rev ∧
      InstallingLibrary.ReadLineAt file 2 = some digest) ∧
    CMakeLibrary.IsHashRelevant none digest file = false := by
  constructor
  · simp [CMakeLibrary.IsHashRelevant, InstallingLibrary.IsHashRelevant,
      InstallingLibrary.CheckGitHash, CMakeLibrary.CheckBuildHash,
      and_assoc]
  · simp [CMakeLibrary.IsHashRelevant, InstallingLibrary.IsHashRelevant,
      InstallingLibrary.CheckGitHash]

/-- C2: the cache record is rewritten only when the run reaches the
`installed` outcome, which requires the build and the install subprocess
to have succeeded; every failure (build, install, or an unobtainable git
revision) leaves the record exactly as it was, and in the installed case
the record carries the fresh revision id on line 1 and the fresh
configuration digest on line 2 — never a partial combination. -/
theorem cache_record_written_only_on_success (rev digest : String)
    (bOk iOk : Bool) (file : Option (List String))
    (hr : ∀ c ∈ rev.data, c ≠ '\n') (hd : ∀ c ∈ digest.data, c ≠ '\n') :
    (∀ git : Option String,
      (CMakeLibrary.InstallLibrary git digest bOk iOk file).2 ≠ .installed →
      (CMakeLibrary.InstallLibrary git digest bOk iOk file).1 = file) ∧
    ((CMakeLibrary.InstallLibrary (some rev) digest bOk iOk file).2 =
        .installed →
      bOk = true ∧ iOk = true ∧
      InstallingLibrary.ReadLineAt
        (CMakeLibrary.InstallLibrary (some rev) digest bOk iOk file).1 1 =
        some rev ∧
      InstallingLibrary.ReadLineAt
        (CMakeLibrary.InstallLibrary (some rev) digest bOk iOk file).1 2 =
        some digest) ∧
    (CMakeLibrary.InstallLibrary none digest bOk iOk file).2 ≠ .installed := by
  refine ⟨?_, ?_, ?_⟩
  · intro git hne
    by_cases h1 : CMakeLibrary.IsHashRelevant git digest file = true
    · simp [CMakeLibrary.InstallLibrary, h1]
    · by_cases h2 : (bOk && iOk) = true
      · cases git with
        | none => simp [CMakeLibrary.InstallLibrary, h1, h2]
        | some r =>
          exfalso
          apply hne
          simp [CMakeLibrary.InstallLibrary, h1, h2]
      · rw [Bool.not_eq_true] at h2
        simp [CMakeLibrary.InstallLibrary, h1, h2]
  · intro hinst
    by_cases h1 : CMakeLibrary.IsHashRelevant (some rev) digest file = true
    · rw [CMakeLibrary.InstallLibrary, if_pos h1] at hinst
      simp at hinst
    · by_cases h2 : (bOk && iOk) = true
      · obtain ⟨hbO, hiO⟩ := Bool.and_eq_true bOk iOk |>.mp h2
        refine ⟨hbO, hiO, ?_, ?_⟩
        · simp only [CMakeLibrary.InstallLibrary, h1, h2, if_false,
            Bool.not_true, Bool.false_eq_true]
          exact (WriteHash_ReadLineAt file rev digest hr hd).1
        · simp only [CMakeLibrary.InstallLibrary, h1, h2, if_false,
            Bool.not_true, Bool.false_eq_true]
          exact (WriteHash_ReadLineAt file rev digest hr hd).2
      · rw [Bool.not_eq_true] at h2
        rw [CMakeLibrary.InstallLibrary, if_neg h1] at hinst
        simp [h2] at hinst
  · by_cases h1 : CMakeLibrary.IsHashRelevant none digest file = true
    · simp [CMakeLibrary.InstallLibrary, h1]
    · by_cases h2 : (bOk && iOk) = true
      · simp [CMakeLibrary.InstallLibrary, h1, h2]
      · rw [Bool.not_eq_true] at h2
        simp [CMakeLibrary.InstallLibrary, h1, h2]

/-- C2 witness: a failed build leaves an existing record untouched, and a
successful build-and-install starting with no record produces a record
whose two lines are the fresh revision id and digest. -/
theorem cache_record_written_only_on_success_witness :
    (∀ c ∈ "r".data, c ≠ '\n') ∧ (∀ c ∈ "d".data, c ≠ '\n') ∧
    (CMakeLibrary.InstallLibrary (some "r") "d" false true (some ["old"])).1 =
      some ["old"] ∧
    (true = true ∧ true = true ∧
      InstallingLibrary.ReadLineAt
        (CMakeLibrary.InstallLibrary (some "r") "d" true true none).1 1 =
        some "r" ∧
      InstallingLibrary.ReadLineAt
        (CMakeLibrary.InstallLibrary (some "r") "d" true true none).1 2 =
        some "d") :=
  ⟨by decide, by decide,
   (cache_record_written_only_on_success "r" "d" false true (some ["old"])
      (by decide) (by decide)).1 (some "r") (by decide),
   (cache_record_written_only_on_success "r" "d" true true none
      (by decide) (by decide)).2.1 (by decide)⟩

/-- C10: for every `n ≥ 1` and newline-free text, `WriteLineAt` followed
by `ReadLineAt` at line `n` returns exactly the text; every line `m < n`
that did not previously exist reads back as the empty padding line; and
every pre-existing line other than `n` is unchanged. -/
theorem write_read_line_roundtrip (file : Option (List String)) (n : Nat)
    (text : String) (hn : 1 ≤ n) (ht : ∀ c ∈ text.data, c ≠ '\n') :
    InstallingLibrary.ReadLineAt
        (some (InstallingLibrary.WriteLineAt file n text)) n = some text ∧
    (∀ m, 1 ≤ m → m < n → (file.getD []).length < m →
      InstallingLibrary.ReadLineAt
          (some (InstallingLibrary.WriteLineAt file n text)) m = some "") ∧
    (∀ k, 1 ≤ k → k ≠ n → k ≤ (file.getD []).length →
      InstallingLibrary.ReadLineAt
          (some (InstallingLibrary.WriteLineAt file n text)) k =
        InstallingLibrary.ReadLineAt file k) :=
  ⟨ReadLineAt_WriteLineAt_self file n text (by omega) ht,
   fun m hm hmn hover =>
     ReadLineAt_WriteLineAt_pad file n m text (by omega) hmn hover,
   fun k hk hkn hkle =>
     ReadLineAt_WriteLineAt_other file n k text (by omega) (by omega) hkn hkle⟩

/-- C10 witness: writing line 4 of a two-line file pads line 3 with a
blank line, stores the text at line 4 and keeps line 1; and overwriting
line 1 of an existing two-line record (what a cache refresh does) stores
the new text at line 1 and keeps line 2. -/
theorem write_read_line_roundtrip_witness :
    ((1 ≤ 4 ∧ 1 ≤ 1) ∧ (∀ c ∈ "abc".data, c ≠ '\n') ∧
      (∀ c ∈ "r1".data, c ≠ '\n')) ∧
    InstallingLibrary.ReadLineAt
        (some (InstallingLibrary.WriteLineAt (some ["x", "y"]) 4 "abc")) 4 =
      some "abc" ∧
    InstallingLibrary.ReadLineAt
        (some (InstallingLibrary.WriteLineAt (some ["x", "y"]) 4 "abc")) 3 =
      some "" ∧
    InstallingLibrary.ReadLineAt
        (some (InstallingLibrary.WriteLineAt (some ["x", "y"]) 4 "abc")) 1 =
      InstallingLibrary.ReadLineAt (some ["x", "y"]) 1 ∧
    InstallingLibrary.ReadLineAt
        (some (InstallingLibrary.WriteLineAt (some ["r0", "d0"]) 1 "r1")) 1 =
      some "r1" ∧
    InstallingLibrary.ReadLineAt
        (some (InstallingLibrary.WriteLineAt (some ["r0", "d0"]) 1 "r1")) 2 =
      InstallingLibrary.ReadLineAt (some ["r0", "d0"]) 2 :=
  have h4 := write_read_line_roundtrip (some ["x", "y"]) 4 "abc"
    (by decide) (by decide)
  have h1 := write_read_line_roundtrip (some ["r0", "d0"]) 1 "r1"
    (by decide) (by decide)
  ⟨⟨⟨by decide, by decide⟩, by decide, by decide⟩,
   h4.1, h4.2.1 3 (by decide) (by decide) (by decide),
   h4.2.2 1 (by decide) (by decide) (by decide),
   h1.1, h1.2.2 2 (by decide) (by decide) (by decide)⟩

/-- C3 counterexample: after a fully successful cmake build-and-install,
the lock file does NOT still exist on disk — line 289 of deps.py removes
the whole build directory, the lock file included.  The claim asserts it
still exists after completion. -/
theorem lock_file_gone_after_success :
    CMakeLibrary.lockFileExists
      (CMakeLibrary.BuildAndInstall ⟨some [], false⟩ .success) = false := by
  decide

/-- C3 amended: releasing the lock itself never deletes the lock file
(it only drops the exclusive claim), and on every exit path the claim is
released; after a failed configure, build or install step the lock file
still exists for a retry, but a fully successful run ends by deleting the
entire build directory, lock file included. -/
theorem lock_release_scoped (s : BuildDirState) (o : CMakeLibrary.CMakeOutcome) :
    (CMakeLibrary.releaseLock s).items = s.items ∧
    (CMakeLibrary.BuildAndInstall s o).lockHeld = false ∧
    (o ≠ .success →
      CMakeLibrary.lockFileExists (CMakeLibrary.BuildAndInstall s o) = true) ∧
    (o = .success → (CMakeLibrary.BuildAndInstall s o).items = none) := by
  have hlock : ∀ t : BuildDirState,
      CMakeLibrary.lockFileExists
        (CMakeLibrary.clearExceptLock (CMakeLibrary.acquireCreatesLock t)) =
        true := by
    intro t
    simp only [CMakeLibrary.lockFileExists, CMakeLibrary.clearExceptLock,
      CMakeLibrary.acquireCreatesLock]
    by_cases h : (t.items.getD []).contains lockFileName
    · simp only [h, if_true]
      have hm : lockFileName ∈ t.items.getD [] := by
        simpa using h
      simp [List.mem_filter, hm]
    · simp only [h, if_false]
      simp [List.mem_filter]
  refine ⟨rfl, ?_, ?_, ?_⟩
  · cases o <;> rfl
  · intro hno
    cases o with
    | configureFailed => exact hlock s
    | buildFailed => exact hlock s
    | installFailed => exact hlock s
    | success => exact absurd rfl hno
  · intro hyes
    cases o with
    | success => rfl
    | configureFailed => exact absurd hyes (by simp)
    | buildFailed => exact absurd hyes (by simp)
    | installFailed => exact absurd hyes (by simp)

/-- C3 amended witness: a failed build leaves the lock file in place with
the claim released, and a successful run removes the build directory. -/
theorem lock_release_scoped_witness :
    CMakeLibrary.lockFileExists
      (CMakeLibrary.BuildAndInstall ⟨some ["junk"], false⟩ .buildFailed) =
      true ∧
    (CMakeLibrary.BuildAndInstall ⟨some ["junk"], false⟩ .success).items =
      none :=
  ⟨(lock_release_scoped ⟨some ["junk"], false⟩ .buildFailed).2.2.1 (by decide),
   (lock_release_scoped ⟨some ["junk"], false⟩ .success).2.2.2 rfl⟩

/-- C4 counterexample: for the manual (copy-based) library kind, installing
artifact set containing only a.h and then artifact set containing only b.h
leaves a.h in the install destination although it is not in the second
set — the destination is not fully replaced.  The claim asserts this for
every library kind. -/
theorem manual_install_keeps_stale_file :
    "a.h" ∈ ManualLibrary.installInto
      (ManualLibrary.installInto [] ["a.h"]) ["b.h"] ∧
    "a.h" ∉ (["b.h"] : List String) := by
  decide

/-- C4 amended: only the build-based (cmake) kind replaces the install
destination — the old tree is removed and recreated so exactly the new
artifact set remains (deps.py lines 281-287); the manual and header kinds
copy over the existing destination, overwriting colliding paths but
keeping every old file whose path is not in the new set. -/
theorem install_dest_replacement_by_kind (old new : List String) :
    CMakeLibrary.replaceInstallDir old new = new ∧
    (∀ p, p ∈ ManualLibrary.installInto old new ↔
      (p ∈ old ∧ p ∉ new) ∨ p ∈ new) := by
  refine ⟨rfl, fun p => ?_⟩
  simp [ManualLibrary.installInto, List.mem_filter, List.mem_append]

/-- C5: the pattern split scans path segments from the root — the fixed
part is the longest wildcard-free leading run of segments and the suffix
is the remaining segments joined with the separator; in particular the
two examples of the claim hold, a wildcard-free pattern yielding the
whole pattern as its fixed part and an empty suffix. -/
theorem split_pattern_spec :
    (∀ pattern : String,
      ManualLibrary.SplitPattern pattern =
        ((ManualLibrary.toParts pattern).takeWhile
            (fun p => !ManualLibrary.hasWildcard p),
         "/".intercalate ((ManualLibrary.toParts pattern).dropWhile
            (fun p => !ManualLibrary.hasWildcard p)))) ∧
    ManualLibrary.SplitPattern "redistributable_bin/**/*.dll" =
      (["redistributable_bin"], "**/*.dll") ∧
    ManualLibrary.SplitPattern "a/b/c.h" = (["a", "b", "c.h"], "") ∧
    "/".intercalate (ManualLibrary.SplitPattern "a/b/c.h").1 = "a/b/c.h" := by
  have key : ∀ parts : List String,
      ManualLibrary.splitParts parts =
        (parts.takeWhile (fun p => !ManualLibrary.hasWildcard p),
         parts.dropWhile (fun p => !ManualLibrary.hasWildcard p)) := by
    intro parts
    induction parts with
    | nil => rfl
    | cons p ps ih =>
      by_cases h : ManualLibrary.hasWildcard p
      · simp [ManualLibrary.splitParts, h, List.takeWhile_cons,
          List.dropWhile_cons]
      · simp [ManualLibrary.splitParts, h, List.takeWhile_cons,
          List.dropWhile_cons, ih]
  refine ⟨fun pattern => ?_, by decide, by decide, by decide⟩
  simp [ManualLibrary.SplitPattern, key]

/-- C6: every pair produced by the rule resolver maps a filesystem match
of the glob to `install_dir / destination_subpath / relative_path`, where
the relative path is the match taken relative to the glob root; in
particular the claim example resolves
redistributable_bin/win64/steam_api64.dll under rule
(redistributable_bin/**/*.dll, bin) to
install_root/bin/win64/steam_api64.dll. -/
theorem resolve_rule_destinations :
    (∀ (tree : List (List String)) (sourceDir installDir : List String)
        (pattern dst : String) (pr : List String × List String),
      pr ∈ ManualLibrary.ResolveRule tree sourceDir installDir pattern dst →
      ∃ rel,
        relativeTo pr.1
            (sourceDir ++ (ManualLibrary.SplitPattern pattern).1) = some rel ∧
        matchSegs
            (ManualLibrary.toParts (ManualLibrary.SplitPattern pattern).2)
            rel = true ∧
        pr.2 = installDir ++ ManualLibrary.toParts dst ++ rel) ∧
    ManualLibrary.ResolveRule
        [["src", "SteamworksSDK", "redistributable_bin", "win64",
          "steam_api64.dll"]]
        ["src", "SteamworksSDK"] ["install_root"]
        "redistributable_bin/**/*.dll" "bin"
      = [(["src", "SteamworksSDK", "redistributable_bin", "win64",
           "steam_api64.dll"],
          ["install_root", "bin", "win64", "steam_api64.dll"])] := by
  constructor
  · intro tree sourceDir installDir pattern dst pr hpr
    simp only [ManualLibrary.ResolveRule, List.mem_filterMap,
      List.mem_filter] at hpr
    obtain ⟨full, ⟨hmem, hmatch⟩, hsome⟩ := hpr
    rw [Option.map_eq_some'] at hsome
    obtain ⟨rel, hrel, hpair⟩ := hsome
    subst hpair
    refine ⟨rel, hrel, ?_, rfl⟩
    simp only [globMatches] at hmatch
    rw [hrel] at hmatch
    exact hmatch
  · decide

/-- C6 witness: the concrete match of the claim example satisfies the
destination mapping. -/
theorem resolve_rule_destinations_witness :
    ((["src", "SteamworksSDK", "redistributable_bin", "win64",
        "steam_api64.dll"],
      ["install_root", "bin", "win64", "steam_api64.dll"]) ∈
        ManualLibrary.ResolveRule
          [["src", "SteamworksSDK", "redistributable_bin", "win64",
            "steam_api64.dll"]]
          ["src", "SteamworksSDK"] ["install_root"]
          "redistributable_bin/**/*.dll" "bin") ∧
    (∃ rel,
      relativeTo
          (["src", "SteamworksSDK", "redistributable_bin", "win64",
            "steam_api64.dll"],
           ["install_root", "bin", "win64", "steam_api64.dll"]).1
          (["src", "SteamworksSDK"] ++
            (ManualLibrary.SplitPattern "redistributable_bin/**/*.dll").1) =
        some rel ∧
      matchSegs
          (ManualLibrary.toParts
            (ManualLibrary.SplitPattern "redistributable_bin/**/*.dll").2)
          rel = true ∧
      (["src", "SteamworksSDK", "redistributable_bin", "win64",
        "steam_api64.dll"],
       ["install_root", "bin", "win64", "steam_api64.dll"]).2 =
        ["install_root"] ++ ManualLibrary.toParts "bin" ++ rel) :=
  ⟨by decide,
   resolve_rule_destinations.1
     [["src", "SteamworksSDK", "redistributable_bin", "win64",
       "steam_api64.dll"]]
     ["src", "SteamworksSDK"] ["install_root"]
     "redistributable_bin/**/*.dll" "bin" _ (by decide)⟩

/-- C7: when the lock on the configured build directory is contended, the
loop retries sibling directories suffixed -1, -2, -3, ... unboundedly and
acquires the first free one (every earlier attempt was contended); and on
the acquired directory everything except the lock file is deleted before
first use. -/
theorem lock_fallback_acquisition (locked : Nat → Bool) (base : String)
    (h : ∃ k, locked k = false) :
    locked (CMakeLibrary.acquiredIndex locked h) = false ∧
    (∀ j, j < CMakeLibrary.acquiredIndex locked h → locked j = true) ∧
    CMakeLibrary.buildDirName base 0 = base ∧
    (∀ n : Nat, n ≠ 0 →
      CMakeLibrary.buildDirName base n = base ++ "-" ++ toString n) ∧
    (∀ (s : BuildDirState) (x : String),
      x ∈ ((CMakeLibrary.clearExceptLock s).items.getD []) ↔
        x ∈ (s.items.getD []) ∧ x = lockFileName) := by
  refine ⟨Nat.find_spec h, ?_, rfl, ?_, ?_⟩
  · intro j hj
    exact Bool.ne_false_iff.mp (Nat.find_min h hj)
  · intro n hn
    simp [CMakeLibrary.buildDirName, hn]
  · intro s x
    simp [CMakeLibrary.clearExceptLock, List.mem_filter]

/-- C7 witness: with the first two attempt directories contended, the
loop acquires attempt index 2, every earlier attempt having been
contended, and the sibling names carry the numeric suffix. -/
theorem lock_fallback_acquisition_witness :
    (∃ k, lockedFirstTwo k = false) ∧
    lockedFirstTwo
        (CMakeLibrary.acquiredIndex lockedFirstTwo ⟨2, rfl⟩) = false ∧
    CMakeLibrary.buildDirName "build" 2 = "build-2" :=
  ⟨⟨2, rfl⟩,
   (lock_fallback_acquisition lockedFirstTwo "build" ⟨2, rfl⟩).1,
   ((lock_fallback_acquisition lockedFirstTwo "build" ⟨2, rfl⟩).2.2.2.1 2
     (by decide)).trans (by decide)⟩

/-- The run of `install_libraries` distributes over a failure-free
processed block: libraries with a present source and no failure are
installed in order and processing continues behind them. -/
theorem install_libraries_append (pre rest : List LibSpec)
    (hpre : ∀ x ∈ pre, x.sourceMissing = true ∨ x.installFails = false) :
    install_libraries (pre ++ rest) =
      (processedNames pre ++ (install_libraries rest).1,
       (install_libraries rest).2) := by
  induction pre with
  | nil => simp [processedNames]
  | cons x ps ih =>
    have hx := hpre x (List.mem_cons_self x ps)
    have hps : ∀ y ∈ ps, y.sourceMissing = true ∨ y.installFails = false :=
      fun y hy => hpre y (List.mem_cons_of_mem x hy)
    cases hsm : x.sourceMissing with
    | true =>
      simp [install_libraries, processedNames, hsm, ih hps]
    | false =>
      have hif : x.installFails = false := by
        rcases hx with hmiss | hok
        · rw [hsm] at hmiss; exact absurd hmiss (by simp)
        · exact hok
      simp [install_libraries, processedNames, hsm, hif, ih hps]

/-- C8: in a run where every library before them is processed without
failure, a library with a missing source directory is skipped (the run
continues past it, and with nothing else left the run finishes with exit
status 0), while a library whose external build or install step fails
aborts the run with exit status 1 naming that library — the libraries
after it are never processed (the result does not depend on them). -/
theorem run_skips_missing_and_aborts_on_failure (pre post : List LibSpec)
    (m l : LibSpec)
    (hpre : ∀ x ∈ pre, x.sourceMissing = true ∨ x.installFails = false)
    (hm : m.sourceMissing = true) (hl : l.sourceMissing = false)
    (hf : l.installFails = true) :
    install_libraries (pre ++ m :: l :: post) =
      (processedNames pre, .fatal l.name) ∧
    install_libraries (pre ++ [m]) = (processedNames pre, .ok) := by
  constructor
  · rw [install_libraries_append pre _ hpre]
    simp [install_libraries, hm, hl, hf]
  · rw [install_libraries_append pre _ hpre]
    simp [install_libraries, hm]

/-- C8 witness: library A installs, M (missing source) is skipped, L
fails fatally naming L, and Z is never processed. -/
theorem run_skips_missing_and_aborts_on_failure_witness :
    (∀ x ∈ [(⟨"A", false, false⟩ : LibSpec)],
      x.sourceMissing = true ∨ x.installFails = false) ∧
    install_libraries
        ([(⟨"A", false, false⟩ : LibSpec)] ++
          ⟨"M", true, false⟩ :: ⟨"L", false, true⟩ ::
            [(⟨"Z", false, false⟩ : LibSpec)]) =
      (processedNames [(⟨"A", false, false⟩ : LibSpec)], .fatal "L") ∧
    install_libraries ([(⟨"A", false, false⟩ : LibSpec)] ++
        [(⟨"M", true, false⟩ : LibSpec)]) =
      (processedNames [(⟨"A", false, false⟩ : LibSpec)], .ok) :=
  have h := run_skips_missing_and_aborts_on_failure
    [(⟨"A", false, false⟩ : LibSpec)] [(⟨"Z", false, false⟩ : LibSpec)]
    ⟨"M", true, false⟩ ⟨"L", false, true⟩ (by decide) rfl rfl rfl
  ⟨by decide, h.1, h.2⟩

/-- C9: evaluating the hash-file path at the default configuration
(`--cache-dir` unset, so `CACHE_ROOT = Path("")`, whose parts are empty,
with `INSTALL_ROOT = third_party/bin`, install subfolder SDL3 and
library name SDL).  Because a `pathlib.Path` is always truthy, the code
places the record at SDL3/hash_SDL.txt relative to the working
directory — not under the install directory
third_party/bin/SDL3 as the claim (and the --cache-dir help text of the
script itself) state.  With a cache root configured, the record lands
under that cache root at cache_root/install_subfolder/hash_name.txt. -/
theorem hash_file_path_eval :
    hashFilePath [] ["third_party", "bin"] ["SDL3"] "SDL" =
      ["SDL3", "hash_SDL.txt"] ∧
    hashFilePath [] ["third_party", "bin"] ["SDL3"] "SDL" ≠
      ["third_party", "bin", "SDL3", "hash_SDL.txt"] ∧
    hashFilePath ["caches"] ["third_party", "bin"] ["SDL3"] "SDL" =
      ["caches", "SDL3", "hash_SDL.txt"] := by
  decide
